import Mathlib

/-!
Verification development for the research-agent repository (src/agent.py).

The repository's deterministic logic consists of three wrapper functions:
`wikipedia_tool`, `arxiv_tool` and `report_writer_tool`.  Each wraps one
external effect (an encyclopedia summary lookup, a paper-index search, a
file append) in a try/except block and always returns a string.

The shallow embedding below makes the external effect explicit: each
wrapper takes, besides its string arguments, the outcome of the one
external call it performs (the service's answer, or the exception it
raised), and computes exactly the string the Python code returns for that
outcome.  The filesystem is modelled as a partial map from filename to
file content, and `report_writer_tool` returns the updated map together
with its result string.
-/

/-- A single-quote character as a string (Python f-strings in the source
embed queries between single quotes). -/
def singleQuote : String := String.singleton (Char.ofNat 39)

/-- `containsStr s sub` : `sub` occurs contiguously inside `s`. -/
def containsStr (s sub : String) : Prop := ∃ p q, s = p ++ sub ++ q

/-- Outcome of the call `wikipedia.summary(query)` performed by
`wikipedia_tool`: a summary string, a `DisambiguationError` carrying the
candidate page titles, a `PageError`, or any other exception with its
message text. -/
inductive WikiOutcome where
  | summary (s : String)
  | disambiguation (options : List String)
  | pageError
  | otherError (msg : String)

/-- One escaped character of Python `repr` for strings, for the chosen
quote character: backslash, the quote, newline, carriage return and tab
are escaped, every other character is kept. -/
def pyEscapeChar (quote c : Char) : String :=
  if c = Char.ofNat 92 then "\\\\"
  else if c = quote then "\\" ++ String.singleton quote
  else if c = Char.ofNat 10 then "\\n"
  else if c = Char.ofNat 13 then "\\r"
  else if c = Char.ofNat 9 then "\\t"
  else String.singleton c

/-- Python `repr` of a string: single-quoted, switching to double quotes
when the string contains a single quote but no double quote. -/
def pyStrRepr (s : String) : String :=
  let hasSingle := s.toList.contains (Char.ofNat 39)
  let hasDouble := s.toList.contains (Char.ofNat 34)
  let quote : Char := if hasSingle && !hasDouble then Char.ofNat 34 else Char.ofNat 39
  String.singleton quote ++ String.join (s.toList.map (pyEscapeChar quote)) ++ String.singleton quote

/-- Python `str` of a list of strings, as an f-string renders
`e.options[:3]`: bracketed, comma-separated `repr`s. -/
def pyListRepr (xs : List String) : String :=
  "[" ++ String.intercalate ", " (xs.map pyStrRepr) ++ "]"

/-- Embedding of `wikipedia_tool` from src/agent.py.  The try body calls
`wikipedia.summary(query)` and returns its result; the except clauses map
`DisambiguationError` to an ambiguity message interpolating the query and
`e.options[:3]`, `PageError` to a not-found message interpolating the
query, and any other exception to a generic message embedding the
exception text.  The function is total: every outcome yields a string. -/
def wikipedia_tool (query : String) (outcome : WikiOutcome) : String :=
  match outcome with
  | .summary s => s
  | .disambiguation options =>
      "The query " ++ singleQuote ++ query ++ singleQuote ++
        " is ambiguous. Please be more specific. Options: " ++ pyListRepr (options.take 3)
  | .pageError =>
      "Sorry, I could not find a Wikipedia page for " ++ singleQuote ++ query ++ singleQuote ++ "."
  | .otherError e =>
      "An unexpected error occurred while searching Wikipedia: " ++ e

/-- One result of the arXiv search, with the three fields the source
reads: `result.title`, `result.summary`, `result.entry_id`. -/
structure ArxivResult where
  title : String
  summary : String
  entry_id : String
deriving DecidableEq

/-- Outcome of the search performed by `arxiv_tool`: the relevance-sorted
result stream the service would yield for the query (the client then stops
after `max_results = 2` of them), or an exception with its message. -/
inductive ArxivOutcome where
  | results (papers : List ArxivResult)
  | error (msg : String)

/-- The record `arxiv_tool` appends for one result:
`f"Title: {result.title}\nSummary: {result.summary}\nURL: {result.entry_id}"`. -/
def formatArxivRecord (r : ArxivResult) : String :=
  "Title: " ++ r.title ++ "\nSummary: " ++ r.summary ++ "\nURL: " ++ r.entry_id

/-- The list `results` built by the loop in `arxiv_tool`: one formatted
record per paper yielded by the client, which honours `max_results = 2`. -/
def arxivRecords (papers : List ArxivResult) : List String :=
  (papers.take 2).map formatArxivRecord

/-- Python `str.join`: `sep.join(xs)` interleaves `sep` between the
elements of `xs`. -/
def pyJoin (sep : String) : List String → String
  | [] => ""
  | [x] => x
  | x :: y :: xs => x ++ sep ++ pyJoin sep (y :: xs)

/-- Embedding of `arxiv_tool` from src/agent.py: build one three-field
record per search result, return a no-results message interpolating the
query when the list is empty, otherwise the records joined with
`"\n---\n"`; any exception during the search becomes a generic message
embedding the exception text. -/
def arxiv_tool (query : String) (outcome : ArxivOutcome) : String :=
  match outcome with
  | .results papers =>
      let results := arxivRecords papers
      if results.isEmpty then
        "No academic papers found on arXiv for the query " ++ singleQuote ++ query ++ singleQuote ++ "."
      else
        pyJoin "\n---\n" results
  | .error e =>
      "An unexpected error occurred while searching arXiv: " ++ e

/-- The local filesystem: a map from filename to the content of the file,
`none` when the file does not exist. -/
def FileSystem : Type := String → Option String

/-- A fresh filesystem: no file exists. -/
def freshFS : FileSystem := fun _ => none

/-- Reading a file as `open(filename, 'a')` sees it: the current content,
or empty when the file does not exist yet (create-if-absent). -/
def readFile (fs : FileSystem) (filename : String) : String :=
  (fs filename).getD ""

/-- Outcome of the file I/O performed by `report_writer_tool`: the
open/write/close succeeded, or some I/O exception was raised with the
given message. -/
inductive WriteOutcome where
  | ok
  | ioError (msg : String)

/-- Embedding of `report_writer_tool` from src/agent.py: open `filename`
in append mode (creating it if absent), write `content + "\n"` at the end,
and return a success message interpolating the filename; on any exception
the filesystem is unchanged and a generic error message embedding the
exception text is returned. -/
def report_writer_tool (content filename : String) (fs : FileSystem)
    (outcome : WriteOutcome) : FileSystem × String :=
  match outcome with
  | .ok =>
      (fun n => if n = filename then some (readFile fs filename ++ content ++ "\n") else fs n,
       "Successfully appended content to " ++ filename ++ ".")
  | .ioError e =>
      (fs, "An error occurred while writing to file: " ++ e)

/-- A sequence of `report_writer_tool` calls, each with its content,
filename and I/O outcome, run left to right over the filesystem. -/
def runReportCalls (calls : List (String × String × WriteOutcome)) (fs : FileSystem) :
    FileSystem :=
  match calls with
  | [] => fs
  | (c, fn, o) :: rest => runReportCalls rest (report_writer_tool c fn fs o).1

/-- Number of lines of a string: newline count plus one. -/
def lineCount (s : String) : Nat := s.toList.count (Char.ofNat 10) + 1

/-- One `report_writer_tool` call only ever extends a file's content. -/
theorem report_step_mono (c fn : String) (fs : FileSystem) (o : WriteOutcome) (n : String) :
    ∃ t, readFile (report_writer_tool c fn fs o).1 n = readFile fs n ++ t := by
  cases o with
  | ok =>
      by_cases h : n = fn
      · subst h
        exact ⟨c ++ "\n", by simp [report_writer_tool, readFile, String.append_assoc]⟩
      · exact ⟨"", by simp [report_writer_tool, readFile, h]⟩
  | ioError e => exact ⟨"", by simp [report_writer_tool, readFile]⟩

/-- Across any sequence of `report_writer_tool` calls, a file's content
only ever grows by a suffix. -/
theorem runReportCalls_mono (calls : List (String × String × WriteOutcome))
    (fs : FileSystem) (n : String) :
    ∃ t, readFile (runReportCalls calls fs) n = readFile fs n ++ t := by
  induction calls generalizing fs with
  | nil => exact ⟨"", by simp [runReportCalls]⟩
  | cons call rest ih =>
      obtain ⟨c, fn, o⟩ := call
      obtain ⟨t₁, h₁⟩ := report_step_mono c fn fs o n
      obtain ⟨t₂, h₂⟩ := ih (report_writer_tool c fn fs o).1
      exact ⟨t₁ ++ t₂, by rw [runReportCalls, h₂, h₁, String.append_assoc]⟩

/-- A string trivially contains its appended middle part. -/
theorem containsStr_middle (p sub q : String) : containsStr (p ++ sub ++ q) sub :=
  ⟨p, q, rfl⟩

/-- A string contains a suffix appended to it. -/
theorem containsStr_append_right (p sub : String) : containsStr (p ++ sub) sub :=
  ⟨p, "", by simp⟩

/-- Claim C1: every failure path of the three wrappers is converted to a
human-readable string embedding the underlying error's text; no outcome
escapes as an exception (each wrapper is a total function of its service
outcome, so every call returns a string), and an I/O error leaves the
filesystem untouched. -/
theorem c1_wrappers_never_raise (q e c fn : String) (fs : FileSystem) :
    containsStr (wikipedia_tool q (WikiOutcome.otherError e)) e ∧
    containsStr (arxiv_tool q (ArxivOutcome.error e)) e ∧
    containsStr (report_writer_tool c fn fs (WriteOutcome.ioError e)).2 e ∧
    (report_writer_tool c fn fs (WriteOutcome.ioError e)).1 = fs := by
  refine ⟨?_, ?_, ?_, rfl⟩
  · exact containsStr_append_right "An unexpected error occurred while searching Wikipedia: " e
  · exact containsStr_append_right "An unexpected error occurred while searching arXiv: " e
  · exact containsStr_append_right "An error occurred while writing to file: " e

/-- Claim C3: on a query matching no page (`PageError`), `wikipedia_tool`
returns exactly the not-found message with the query substituted
literally between single quotes. -/
theorem c3_not_found_message (q : String) :
    wikipedia_tool q WikiOutcome.pageError
      = "Sorry, I could not find a Wikipedia page for " ++ singleQuote ++ q
          ++ singleQuote ++ "." ∧
    containsStr (wikipedia_tool q WikiOutcome.pageError) q := by
  refine ⟨rfl, "Sorry, I could not find a Wikipedia page for " ++ singleQuote,
    singleQuote ++ ".", ?_⟩
  simp [wikipedia_tool, String.append_assoc]

/-- Claim C7: on a search yielding zero results, `arxiv_tool` returns the
no-results message, which contains the phrase "No academic papers found"
and the literal query. -/
theorem c7_no_results_message (q : String) :
    arxiv_tool q (ArxivOutcome.results [])
      = "No academic papers found on arXiv for the query " ++ singleQuote ++ q
          ++ singleQuote ++ "." ∧
    containsStr (arxiv_tool q (ArxivOutcome.results [])) "No academic papers found" ∧
    containsStr (arxiv_tool q (ArxivOutcome.results [])) q := by
  have h : ("No academic papers found" ++ " on arXiv for the query " : String)
      = "No academic papers found on arXiv for the query " := by decide
  refine ⟨rfl, ⟨"", " on arXiv for the query " ++ singleQuote ++ q ++ singleQuote ++ ".", ?_⟩,
    ⟨"No academic papers found on arXiv for the query " ++ singleQuote,
      singleQuote ++ ".", ?_⟩⟩
  · simp [arxiv_tool, arxivRecords, String.append_assoc]
    conv_rhs => rw [← String.append_assoc]
    rw [h]
  · simp [arxiv_tool, arxivRecords, String.append_assoc]

/-- Claim C10: the success message of `report_writer_tool` is independent
of the content argument (and of the prior filesystem): any two successful
calls on the same filename return the identical confirmation string, which
reveals nothing about the appended content. -/
theorem c10_success_message_content_independent (c1 c2 fn : String) (fs1 fs2 : FileSystem) :
    (report_writer_tool c1 fn fs1 WriteOutcome.ok).2
      = (report_writer_tool c2 fn fs2 WriteOutcome.ok).2 ∧
    (report_writer_tool c1 fn fs1 WriteOutcome.ok).2
      = "Successfully appended content to " ++ fn ++ "." :=
  ⟨rfl, rfl⟩

/-- Claim C6: on an ambiguous query (`DisambiguationError`),
`wikipedia_tool` returns the ambiguity message, which interpolates the
literal query and renders exactly `e.options[:3]`, a list of at most 3
candidate option names. -/
theorem c6_disambiguation_message (q : String) (options : List String) :
    wikipedia_tool q (WikiOutcome.disambiguation options)
      = "The query " ++ singleQuote ++ q ++ singleQuote ++
          " is ambiguous. Please be more specific. Options: " ++
          pyListRepr (options.take 3) ∧
    containsStr (wikipedia_tool q (WikiOutcome.disambiguation options)) q ∧
    (options.take 3).length ≤ 3 := by
  refine ⟨rfl, ⟨"The query " ++ singleQuote,
    singleQuote ++ " is ambiguous. Please be more specific. Options: " ++
      pyListRepr (options.take 3), ?_⟩, ?_⟩
  · simp [wikipedia_tool, String.append_assoc]
  · rw [List.length_take]
    omega

/-- Claim C8 counterexample: the lookup wrappers perform no non-emptiness
check.  On the empty query the result still depends on the upstream
service outcome — the wrapper returns the upstream summary verbatim and a
single-paper search result formatted as usual — so the empty query is
passed through to the service rather than intercepted by a validation in
this code. -/
theorem c8_counterexample :
    wikipedia_tool "" (WikiOutcome.summary "A") = "A" ∧
    arxiv_tool "" (ArxivOutcome.results [⟨"T", "S", "U"⟩])
      = "Title: T\nSummary: S\nURL: U" ∧
    wikipedia_tool "" (WikiOutcome.summary "A")
      ≠ wikipedia_tool "" (WikiOutcome.summary "B") := by
  decide

/-- Claim C8 amended: the lookup wrappers perform no validation of the
query at all, not even non-emptiness; the empty query is handed to the
upstream service like any other and each outcome is handled by the same
branches. -/
theorem c8_amended_no_validation (s e : String) (p : ArxivResult) :
    wikipedia_tool "" (WikiOutcome.summary s) = s ∧
    wikipedia_tool "" (WikiOutcome.otherError e)
      = "An unexpected error occurred while searching Wikipedia: " ++ e ∧
    arxiv_tool "" (ArxivOutcome.results [p]) = formatArxivRecord p := by
  refine ⟨rfl, rfl, ?_⟩
  simp [arxiv_tool, arxivRecords, pyJoin]

/-- Claim C2: on a fresh filesystem the first `report_writer_tool` call
creates the file with exactly the content plus one trailing newline, and a
second call with different content appends its content plus newline after
the first, so reading the file back yields each call's content followed by
a newline, in call order. -/
theorem c2_fresh_append_round_trip (c1 c2 fn : String) (h : c1 ≠ c2) :
    freshFS fn = none ∧
    (report_writer_tool c1 fn freshFS WriteOutcome.ok).1 fn = some (c1 ++ "\n") ∧
    (report_writer_tool c2 fn (report_writer_tool c1 fn freshFS WriteOutcome.ok).1
        WriteOutcome.ok).1 fn = some (c1 ++ "\n" ++ c2 ++ "\n") := by
  refine ⟨rfl, ?_, ?_⟩
  · simp [report_writer_tool, readFile, freshFS]
  · simp [report_writer_tool, readFile, freshFS, String.append_assoc]

/-- Claim C2 witness: the spec's scenario, with the two concrete contents
and the concrete filename. -/
theorem c2_witness :
    ("Summary of topic X" : String) ≠ "More details" ∧
    (freshFS "topic_x_report.txt" = none ∧
     (report_writer_tool "Summary of topic X" "topic_x_report.txt" freshFS
        WriteOutcome.ok).1 "topic_x_report.txt" = some ("Summary of topic X" ++ "\n") ∧
     (report_writer_tool "More details" "topic_x_report.txt"
        (report_writer_tool "Summary of topic X" "topic_x_report.txt" freshFS
          WriteOutcome.ok).1 WriteOutcome.ok).1 "topic_x_report.txt"
        = some ("Summary of topic X" ++ "\n" ++ "More details" ++ "\n")) :=
  ⟨by decide, c2_fresh_append_round_trip "Summary of topic X" "More details"
    "topic_x_report.txt" (by decide)⟩

/-- Claim C5: `report_writer_tool` is append-only.  A successful call
leaves the file holding its previous content followed by the new content
plus a newline; a call never touches any other file; a single call, and
any sequence of calls, only ever extends a file's content by a suffix
(create-if-absent: a missing file reads as empty). -/
theorem c5_append_only_monotone (content filename other : String) (fs : FileSystem)
    (o : WriteOutcome) (calls : List (String × String × WriteOutcome))
    (hother : other ≠ filename) :
    (report_writer_tool content filename fs WriteOutcome.ok).1 filename
      = some (readFile fs filename ++ content ++ "\n") ∧
    (report_writer_tool content filename fs o).1 other = fs other ∧
    (∃ t, readFile (report_writer_tool content filename fs o).1 filename
        = readFile fs filename ++ t) ∧
    (∃ t, readFile (runReportCalls calls fs) filename = readFile fs filename ++ t) := by
  refine ⟨by simp [report_writer_tool], ?_,
    report_step_mono content filename fs o filename,
    runReportCalls_mono calls fs filename⟩
  cases o with
  | ok => simp [report_writer_tool, hother]
  | ioError e => rfl

/-- Claim C5 witness: the append-only property at a concrete content,
filename, distinct other filename, fresh filesystem, successful outcome
and a concrete two-call sequence. -/
theorem c5_witness :
    ("notes.txt" : String) ≠ "report.txt" ∧
    ((report_writer_tool "first line" "report.txt" freshFS WriteOutcome.ok).1 "report.txt"
      = some (readFile freshFS "report.txt" ++ "first line" ++ "\n") ∧
    (report_writer_tool "first line" "report.txt" freshFS WriteOutcome.ok).1 "notes.txt"
      = freshFS "notes.txt" ∧
    (∃ t, readFile (report_writer_tool "first line" "report.txt" freshFS
        WriteOutcome.ok).1 "report.txt" = readFile freshFS "report.txt" ++ t) ∧
    (∃ t, readFile (runReportCalls
        [("first line", "report.txt", WriteOutcome.ok),
         ("second line", "report.txt", WriteOutcome.ok)] freshFS) "report.txt"
      = readFile freshFS "report.txt" ++ t)) :=
  ⟨by decide, c5_append_only_monotone "first line" "report.txt" "notes.txt" freshFS
    WriteOutcome.ok
    [("first line", "report.txt", WriteOutcome.ok),
     ("second line", "report.txt", WriteOutcome.ok)] (by decide)⟩

/-- Claim C4: for any query and any relevance-sorted result stream whose
papers carry non-empty title, summary and identifier, `arxiv_tool` builds
at most 2 records; every record is the three-field format of one of the
stream's papers and contains its non-empty title, summary and identifier;
and when there are 2 records the output is exactly the two records joined
by the literal separator. -/
theorem c4_arxiv_bounded_records (q : String) (papers : List ArxivResult)
    (hfields : ∀ p ∈ papers, p.title ≠ "" ∧ p.summary ≠ "" ∧ p.entry_id ≠ "") :
    (arxivRecords papers).length ≤ 2 ∧
    (∀ r ∈ arxivRecords papers, ∃ p ∈ papers, r = formatArxivRecord p ∧
      p.title ≠ "" ∧ p.summary ≠ "" ∧ p.entry_id ≠ "" ∧
      containsStr r p.title ∧ containsStr r p.summary ∧ containsStr r p.entry_id) ∧
    (∀ r1 r2, arxivRecords papers = [r1, r2] →
      arxiv_tool q (ArxivOutcome.results papers) = r1 ++ "\n---\n" ++ r2) := by
  refine ⟨?_, ?_, ?_⟩
  · rw [arxivRecords, List.length_map, List.length_take]
    omega
  · intro r hr
    rw [arxivRecords, List.mem_map] at hr
    obtain ⟨p, hp, hfmt⟩ := hr
    have hpmem : p ∈ papers := List.mem_of_mem_take hp
    obtain ⟨h1, h2, h3⟩ := hfields p hpmem
    refine ⟨p, hpmem, hfmt.symm, h1, h2, h3, ?_, ?_, ?_⟩
    · exact ⟨"Title: ", "\nSummary: " ++ p.summary ++ "\nURL: " ++ p.entry_id,
        by rw [← hfmt]; simp [formatArxivRecord, String.append_assoc]⟩
    · exact ⟨"Title: " ++ p.title ++ "\nSummary: ", "\nURL: " ++ p.entry_id,
        by rw [← hfmt]; simp [formatArxivRecord, String.append_assoc]⟩
    · exact ⟨"Title: " ++ p.title ++ "\nSummary: " ++ p.summary ++ "\nURL: ", "",
        by rw [← hfmt]; simp [formatArxivRecord, String.append_assoc]⟩
  · intro r1 r2 hr
    simp only [arxiv_tool, hr]
    rfl

/-- Claim C4 witness: the record bound, field containment and separator at
a concrete query and a concrete two-paper result stream. -/
theorem c4_witness :
    (∀ p ∈ [ArxivResult.mk "T1" "S1" "U1", ArxivResult.mk "T2" "S2" "U2"],
      p.title ≠ "" ∧ p.summary ≠ "" ∧ p.entry_id ≠ "") ∧
    ((arxivRecords [ArxivResult.mk "T1" "S1" "U1", ArxivResult.mk "T2" "S2" "U2"]).length ≤ 2 ∧
    (∀ r ∈ arxivRecords [ArxivResult.mk "T1" "S1" "U1", ArxivResult.mk "T2" "S2" "U2"],
      ∃ p ∈ [ArxivResult.mk "T1" "S1" "U1", ArxivResult.mk "T2" "S2" "U2"],
        r = formatArxivRecord p ∧
        p.title ≠ "" ∧ p.summary ≠ "" ∧ p.entry_id ≠ "" ∧
        containsStr r p.title ∧ containsStr r p.summary ∧ containsStr r p.entry_id) ∧
    (∀ r1 r2,
      arxivRecords [ArxivResult.mk "T1" "S1" "U1", ArxivResult.mk "T2" "S2" "U2"] = [r1, r2] →
      arxiv_tool "quantum"
          (ArxivOutcome.results [ArxivResult.mk "T1" "S1" "U1", ArxivResult.mk "T2" "S2" "U2"])
        = r1 ++ "\n---\n" ++ r2)) :=
  ⟨by decide, c4_arxiv_bounded_records "quantum"
    [ArxivResult.mk "T1" "S1" "U1", ArxivResult.mk "T2" "S2" "U2"] (by decide)⟩

/-- Claim C9 counterexample: a search result whose summary field itself
contains a newline (as real arXiv abstracts do) is formatted by
`arxiv_tool` as a record of 4 lines, not exactly 3: the two field-joining
newlines of the format plus the newline inside the summary. -/
theorem c9_counterexample :
    arxiv_tool "attention" (ArxivOutcome.results [ArxivResult.mk "T" "line one\nline two" "U"])
      = formatArxivRecord (ArxivResult.mk "T" "line one\nline two" "U") ∧
    lineCount (formatArxivRecord (ArxivResult.mk "T" "line one\nline two" "U")) = 4 := by
  decide

/-- Claim C9 amended: `arxiv_tool` formats each record as the title line,
the summary line and the identifier line joined by single newlines, which
is exactly three lines provided the title, summary and identifier fields
themselves contain no newline character. -/
theorem c9_amended_three_lines (p : ArxivResult)
    (ht : p.title.toList.count (Char.ofNat 10) = 0)
    (hs : p.summary.toList.count (Char.ofNat 10) = 0)
    (hu : p.entry_id.toList.count (Char.ofNat 10) = 0) :
    formatArxivRecord p
      = "Title: " ++ p.title ++ "\n" ++ "Summary: " ++ p.summary ++ "\n"
          ++ "URL: " ++ p.entry_id ∧
    lineCount (formatArxivRecord p) = 3 := by
  have hSplitSum : ("\n" ++ "Summary: " : String) = "\nSummary: " := by decide
  have hSplitUrl : ("\n" ++ "URL: " : String) = "\nURL: " := by decide
  have hToListApp : ∀ a b : String, (a ++ b).toList = a.toList ++ b.toList :=
    fun a b => rfl
  have hTitle : ("Title: " : String).toList.count (Char.ofNat 10) = 0 := by decide
  have hSum : ("\nSummary: " : String).toList.count (Char.ofNat 10) = 1 := by decide
  have hUrl : ("\nURL: " : String).toList.count (Char.ofNat 10) = 1 := by decide
  constructor
  · simp [formatArxivRecord, ← hSplitSum, ← hSplitUrl, String.append_assoc]
  · have ht2 : List.count (Char.ofNat 10) p.title.data = 0 := ht
    have hs2 : List.count (Char.ofNat 10) p.summary.data = 0 := hs
    have hu2 : List.count (Char.ofNat 10) p.entry_id.data = 0 := hu
    simp [lineCount, formatArxivRecord, hToListApp, List.count_append,
      hTitle, hSum, hUrl, ht2, hs2, hu2]

/-- Claim C9 amended witness: the three-line record shape at a concrete
paper whose fields contain no newline. -/
theorem c9_witness :
    ("Attention Is All You Need" : String).toList.count (Char.ofNat 10) = 0 ∧
    ("We propose the Transformer." : String).toList.count (Char.ofNat 10) = 0 ∧
    ("http://arxiv.org/abs/1706.03762v7" : String).toList.count (Char.ofNat 10) = 0 ∧
    (formatArxivRecord
        (ArxivResult.mk "Attention Is All You Need" "We propose the Transformer."
          "http://arxiv.org/abs/1706.03762v7")
      = "Title: " ++ "Attention Is All You Need" ++ "\n" ++ "Summary: "
          ++ "We propose the Transformer." ++ "\n" ++ "URL: "
          ++ "http://arxiv.org/abs/1706.03762v7" ∧
    lineCount (formatArxivRecord
        (ArxivResult.mk "Attention Is All You Need" "We propose the Transformer."
          "http://arxiv.org/abs/1706.03762v7")) = 3) :=
  ⟨by decide, by decide, by decide,
    c9_amended_three_lines
      (ArxivResult.mk "Attention Is All You Need" "We propose the Transformer."
        "http://arxiv.org/abs/1706.03762v7") (by decide) (by decide) (by decide)⟩
